import Mathlib

/-!
Shallow embedding of the travelweb_app relational CRUD core.

The program is a Flask-RESTX service over a SQLite database.  The schema is
created by `src/init_db.py` (`create_tables`), connections are obtained by
`src/db.py` (`get_db`, which switches `PRAGMA foreign_keys = ON`), and the
request handlers live in `src/resources/{users,countries,locations,trips,
user_countries}.py`.  Each handler is embedded as a pure function from a
database state (and a request payload) to an HTTP outcome together with the
successor database state.  HTTP aborts (`ns.abort(status, msg)`) and uncaught
exceptions (which Flask turns into a 500 response) are both embedded as
`Outcome.err status msg`.

Schema facts embedded from `init_db.py`:
  * Users(user_id PK AUTOINCREMENT, username TEXT NOT NULL UNIQUE,
          email TEXT NOT NULL UNIQUE, profile_url, created_at)
  * Countries(country_id PK, country_code3 NOT NULL UNIQUE,
          country NOT NULL UNIQUE, flag_url, currency, continent, capital)
  * Locations(location_id PK, loc_name NOT NULL, user_id NOT NULL FK,
          country_id NOT NULL FK, image_url, UNIQUE(user_id, loc_name))
  * Trips(trip_id PK, trip_name NOT NULL, user_id NOT NULL FK,
          country_id NOT NULL FK, location_id FK, startdate TEXT NOT NULL,
          enddate TEXT NOT NULL, notes, UNIQUE(user_id, trip_name))
  * User_countries(user_id, country_id, PRIMARY KEY(user_id, country_id),
          both FK)
None of the foreign keys carries an `ON DELETE` action, so with
`PRAGMA foreign_keys = ON` the default `NO ACTION` applies: deleting a
referenced row raises `sqlite3.IntegrityError: FOREIGN KEY constraint failed`.
-/

namespace TravelWeb

/-! ### String primitives

Python's `str.strip()/lower()/upper()` and SQLite's `LOWER`/`ORDER BY`
(BINARY collation) are embedded as structurally recursive functions on the
character list of a `String`, so that every handler below evaluates inside
the kernel. -/

/-- Python `str.strip()`: drop leading and trailing whitespace. -/
def pyStrip (s : String) : String :=
  String.mk (((s.data.dropWhile Char.isWhitespace).reverse.dropWhile Char.isWhitespace).reverse)

/-- Lexicographic comparison of character lists; on the ASCII data stored by
this application it coincides with SQLite's BINARY collation. -/
def charListLt : List Char → List Char → Bool
  | [], [] => false
  | [], _ :: _ => true
  | _ :: _, [] => false
  | a :: as, b :: bs => if a < b then true else if b < a then false else charListLt as bs

/-- Strict string order used for `ORDER BY ... ASC` and date comparison. -/
def strLt (s t : String) : Bool := charListLt s.data t.data

/-- Reflexive string order. -/
def strLe (s t : String) : Bool := strLt s t || s == t

/-- Result of one request handler: either a success status (200/201/204) with
a body, or an error status (400/404/409/500) with a message, exactly as
produced by `ns.abort` / an uncaught exception turned into a 500 response. -/
inductive Outcome (α : Type) where
  | ok : Nat → α → Outcome α
  | err : Nat → String → Outcome α
deriving DecidableEq, Repr

/-- The HTTP status of an outcome. -/
def Outcome.statusCode {α : Type} : Outcome α → Nat
  | .ok c _ => c
  | .err c _ => c

/-- A row of the `Users` table of `init_db.py`. -/
structure UserRow where
  user_id : Nat
  username : String
  email : String
  profile_url : Option String
  created_at : String
deriving DecidableEq, Repr

/-- A row of the `Countries` table of `init_db.py`. -/
structure CountryRow where
  country_id : Nat
  country_code3 : String
  country : String
  flag_url : Option String
  currency : Option String
  continent : Option String
  capital : Option String
deriving DecidableEq, Repr

/-- A row of the `Locations` table of `init_db.py`.  Note that the table has
exactly the five columns below; the handlers in `resources/locations.py`
additionally mention `latitude` and `longitude` columns that do not exist in
this schema (see `locationsTableColumns` / `locationsInsertColumns`). -/
structure LocationRow where
  location_id : Nat
  loc_name : String
  user_id : Nat
  country_id : Nat
  image_url : Option String
deriving DecidableEq, Repr

/-- A row of the `Trips` table of `init_db.py`. -/
structure TripRow where
  trip_id : Nat
  trip_name : String
  user_id : Nat
  country_id : Nat
  location_id : Option Nat
  startdate : String
  enddate : String
  notes : Option String
deriving DecidableEq, Repr

/-- A row of the `User_countries` link table of `init_db.py`. -/
structure LinkRow where
  user_id : Nat
  country_id : Nat
deriving DecidableEq, Repr

/-- The database state: the five tables plus the AUTOINCREMENT counters of
the four surrogate-key tables. -/
structure DB where
  users : List UserRow
  countries : List CountryRow
  locations : List LocationRow
  trips : List TripRow
  links : List LinkRow
  nextUserId : Nat
  nextCountryId : Nat
  nextLocationId : Nat
  nextTripId : Nat
deriving DecidableEq, Repr

/-- The state produced by `create_tables` on a fresh file: all five tables
empty, surrogate keys starting at 1. -/
def emptyDB : DB :=
  { users := [], countries := [], locations := [], trips := [], links := []
    nextUserId := 1, nextCountryId := 1, nextLocationId := 1, nextTripId := 1 }

/-- SELECT 1 FROM Users WHERE user_id = ? -/
def userExists (db : DB) (uid : Nat) : Bool :=
  db.users.any (fun u => u.user_id == uid)

/-- SELECT 1 FROM Countries WHERE country_id = ? -/
def countryExists (db : DB) (cid : Nat) : Bool :=
  db.countries.any (fun c => c.country_id == cid)

/-! ## Request payloads

JSON payloads are dictionaries read with `data.get(key)`, so every field is
optional at this level; `data.get(k, '')` is embedded as `Option.getD _ ""`.
Numeric JSON fields that only ever feed `is not None` checks (`latitude`,
`longitude` in `LocationInput`) are kept as `Option Float`. -/

/-- Payload of POST/PUT on `/users` (`user_model_input`). -/
structure UserInput where
  username : Option String
  email : Option String
  profile_url : Option String
deriving Repr

/-- Payload of POST/PUT on `/locations` (`location_model_input`). -/
structure LocationInput where
  loc_name : Option String
  user_id : Option Nat
  country_id : Option Nat
  image_url : Option String
  latitude : Option Float
  longitude : Option Float
deriving Repr

/-- Payload of POST/PUT on `/trips` (`trip_model_input`). -/
structure TripInput where
  trip_name : Option String
  user_id : Option Nat
  country_id : Option Nat
  startdate : Option String
  enddate : Option String
deriving Repr

/-- Payload of POST on `/user-countries` (`user_country_link_model`). -/
structure LinkInput where
  user_id : Option Nat
  country_id : Option Nat
deriving Repr

/-! ## Users resource (`src/resources/users.py`) -/

/-- `UserList.post`: trim username/email/profile_url, reject blank
username/email with 400, INSERT (translating a `UNIQUE` IntegrityError to a
409), then re-read the created row and return it with 201.  SQLite checks the
`username` column's UNIQUE constraint before `email`'s (table column order).
`now` is the connection's CURRENT_TIMESTAMP used for the `created_at`
DEFAULT. -/
def usersPost (db : DB) (p : UserInput) (now : String) : Outcome UserRow × DB :=
  let username := pyStrip (p.username.getD "")
  let email := pyStrip (p.email.getD "")
  let profile_url := p.profile_url.map pyStrip
  if username == "" || email == "" then
    (.err 400 "Username and email are required.", db)
  else if db.users.any (fun u => u.username == username) then
    (.err 409 "Could not create user. Username or email might already exist. Error: UNIQUE constraint failed: Users.username", db)
  else if db.users.any (fun u => u.email == email) then
    (.err 409 "Could not create user. Username or email might already exist. Error: UNIQUE constraint failed: Users.email", db)
  else
    let row : UserRow :=
      { user_id := db.nextUserId, username := username, email := email
        profile_url := profile_url, created_at := now }
    (.ok 201 row, { db with users := db.users ++ [row], nextUserId := db.nextUserId + 1 })

/-- `UserResource.get`: SELECT by id, 404 when absent. -/
def userGet (db : DB) (id : Nat) : Outcome UserRow :=
  match db.users.find? (fun u => u.user_id == id) with
  | some u => .ok 200 u
  | none => .err 404 ("User with ID " ++ toString id ++ " not found.")

/-- `UserResource.delete`: `DELETE FROM Users WHERE user_id = ?`.  With
`PRAGMA foreign_keys = ON` and no `ON DELETE CASCADE` declared in
`init_db.py`, SQLite refuses to delete a user still referenced from
`Locations`, `Trips` or `User_countries`: the statement raises
`sqlite3.IntegrityError: FOREIGN KEY constraint failed`, which the handler
does not catch, so Flask answers 500.  Otherwise a zero rowcount yields 404
and success yields 204. -/
def userDelete (db : DB) (id : Nat) : Outcome Unit × DB :=
  if userExists db id then
    if db.locations.any (fun l => l.user_id == id)
        || db.trips.any (fun t => t.user_id == id)
        || db.links.any (fun l => l.user_id == id) then
      (.err 500 "FOREIGN KEY constraint failed", db)
    else
      (.ok 204 (), { db with users := db.users.filter (fun u => u.user_id != id) })
  else
    (.err 404 ("User with ID " ++ toString id ++ " not found, cannot delete."), db)

/-! ## UserCountryLink resource (`src/resources/user_countries.py`) -/

/-- `UserCountryLinkList.post`: both ids required (400), referenced User and
Country must exist (400), a duplicate `(user_id, country_id)` primary key
raises IntegrityError which the handler maps to 409; otherwise the link is
inserted and echoed with 201. -/
def linkPost (db : DB) (p : LinkInput) : Outcome LinkRow × DB :=
  match p.user_id, p.country_id with
  | some uid, some cid =>
    if !(userExists db uid) then
      (.err 400 ("User with ID " ++ toString uid ++ " does not exist."), db)
    else if !(countryExists db cid) then
      (.err 400 ("Country with ID " ++ toString cid ++ " does not exist."), db)
    else if db.links.any (fun l => l.user_id == uid && l.country_id == cid) then
      (.err 409 ("Link between user " ++ toString uid ++ " and country " ++ toString cid ++ " already exists."), db)
    else
      (.ok 201 { user_id := uid, country_id := cid },
       { db with links := db.links ++ [{ user_id := uid, country_id := cid }] })
  | _, _ => (.err 400 "user_id and country_id are required.", db)

/-- `SpecificUserCountryLink.get`: SELECT the link by its composite key,
404 when absent. -/
def linkGet (db : DB) (uid cid : Nat) : Outcome LinkRow :=
  if db.links.any (fun l => l.user_id == uid && l.country_id == cid) then
    .ok 200 { user_id := uid, country_id := cid }
  else
    .err 404 ("No link found between user " ++ toString uid ++ " and country " ++ toString cid ++ ".")

/-! ## Locations resource (`src/resources/locations.py`)

The INSERT of `LocationList.post` names the columns
`(loc_name, user_id, country_id, image_url, latitude, longitude)`, but the
`Locations` table created by `init_db.py` has no `latitude` or `longitude`
column, so preparing the statement raises
`sqlite3.OperationalError: table Locations has no column named latitude`.
The handler only catches `sqlite3.IntegrityError`, so the error propagates
and Flask answers 500.  The embedding keeps the statement's column list and
the table's column list explicit, and gates the insert on the columns
actually resolving. -/

/-- Columns of the `Locations` table created by `init_db.py`. -/
def locationsTableColumns : List String :=
  ["location_id", "loc_name", "user_id", "country_id", "image_url"]

/-- Columns named by the INSERT statement of `LocationList.post`. -/
def locationsInsertColumns : List String :=
  ["loc_name", "user_id", "country_id", "image_url", "latitude", "longitude"]

/-- Whether the INSERT of `LocationList.post` resolves against the schema of
`init_db.py` (it does not: `latitude` and `longitude` are missing). -/
def locationsInsertResolves : Bool :=
  locationsInsertColumns.all (fun c => locationsTableColumns.contains c)

/-- `LocationList.post`: require a nonblank `loc_name` and present `user_id`,
`country_id`, `latitude`, `longitude` (400); verify the referenced user and
country exist (400 naming the missing id); then run the INSERT.  Against the
`init_db.py` schema the INSERT names nonexistent columns, so it raises an
uncaught OperationalError (500).  Were the columns present, a duplicate
`(user_id, loc_name)` would be translated to 409 and success would append the
row and return it with 201. -/
def locationsPost (db : DB) (p : LocationInput) : Outcome LocationRow × DB :=
  let loc_name := pyStrip (p.loc_name.getD "")
  if loc_name == "" || !p.user_id.isSome || !p.country_id.isSome
      || !p.latitude.isSome || !p.longitude.isSome then
    (.err 400 "loc_name, user_id, country_id, latitude, and longitude are required.", db)
  else
    let uid := p.user_id.getD 0
    let cid := p.country_id.getD 0
    if !(userExists db uid) then
      (.err 400 ("User with ID " ++ toString uid ++ " does not exist."), db)
    else if !(countryExists db cid) then
      (.err 400 ("Country with ID " ++ toString cid ++ " does not exist."), db)
    else if !locationsInsertResolves then
      (.err 500 "table Locations has no column named latitude", db)
    else if db.locations.any (fun l => l.user_id == uid && l.loc_name == loc_name) then
      (.err 409 ("User (ID: " ++ toString uid ++ ") already has a location named " ++ loc_name ++ ". Please choose a different name."), db)
    else
      let row : LocationRow :=
        { location_id := db.nextLocationId, loc_name := loc_name, user_id := uid
          country_id := cid, image_url := p.image_url.map pyStrip }
      (.ok 201 row,
       { db with locations := db.locations ++ [row], nextLocationId := db.nextLocationId + 1 })

/-- `LocationResource.get`: SELECT by id, 404 when absent. -/
def locationGet (db : DB) (id : Nat) : Outcome LocationRow :=
  match db.locations.find? (fun l => l.location_id == id) with
  | some l => .ok 200 l
  | none => .err 404 ("Location with ID " ++ toString id ++ " not found.")

/-- Insertion into a list sorted by `loc_name` (SQLite `ORDER BY loc_name
ASC`, byte-wise BINARY collation). -/
def insertByLocName (x : LocationRow) : List LocationRow → List LocationRow
  | [] => [x]
  | y :: ys => if strLe x.loc_name y.loc_name then x :: y :: ys else y :: insertByLocName x ys

/-- `ORDER BY loc_name ASC` as a stable insertion sort. -/
def sortByLocName : List LocationRow → List LocationRow
  | [] => []
  | x :: xs => insertByLocName x (sortByLocName xs)

/-- `UserLocations.get` (route `/locations/user/{user_id}`): 404 when the
user does not exist; otherwise SELECT this user's locations ordered by name,
and — per the final `if not locations:` — 404 again when that list is empty;
only a nonempty list is returned with 200. -/
def userLocationsGet (db : DB) (uid : Nat) : Outcome (List LocationRow) :=
  if !(userExists db uid) then
    .err 404 ("User with ID " ++ toString uid ++ " does not exist.")
  else
    let locations := sortByLocName (db.locations.filter (fun l => l.user_id == uid))
    if locations.isEmpty then
      .err 404 ("No locations found for user ID " ++ toString uid ++ ".")
    else
      .ok 200 locations

/-! ## Trips resource (`src/resources/trips.py`) -/

/-- `TripList.post`: require nonblank `trip_name` and present `user_id`,
`country_id` (400) — `startdate`/`enddate` are NOT checked; verify the
referenced user and country exist (400); INSERT.  SQLite checks NOT NULL
constraints (in column order: `startdate` then `enddate`) before UNIQUE
ones; a NOT NULL IntegrityError does not match the handler's
`"UNIQUE constraint failed: Trips.user_id, Trips.trip_name"` test and is
answered with 500, a duplicate `(user_id, trip_name)` with 409.  On success
the created row (with NULL `location_id` and `notes`) is re-read and
returned with 201. -/
def tripsPost (db : DB) (p : TripInput) : Outcome TripRow × DB :=
  let trip_name := pyStrip (p.trip_name.getD "")
  if trip_name == "" || !p.user_id.isSome || !p.country_id.isSome then
    (.err 400 "trip_name, user_id, and country_id are required.", db)
  else
    let uid := p.user_id.getD 0
    let cid := p.country_id.getD 0
    if !(userExists db uid) then
      (.err 400 ("User with ID " ++ toString uid ++ " does not exist."), db)
    else if !(countryExists db cid) then
      (.err 400 ("Country with ID " ++ toString cid ++ " does not exist."), db)
    else
      match p.startdate with
      | none =>
        (.err 500 "Database error during trip creation: NOT NULL constraint failed: Trips.startdate", db)
      | some sd =>
        match p.enddate with
        | none =>
          (.err 500 "Database error during trip creation: NOT NULL constraint failed: Trips.enddate", db)
        | some ed =>
          if db.trips.any (fun t => t.user_id == uid && t.trip_name == trip_name) then
            (.err 409 ("User (ID: " ++ toString uid ++ ") already has a trip named " ++ trip_name ++ ". Please choose a different name."), db)
          else
            let row : TripRow :=
              { trip_id := db.nextTripId, trip_name := trip_name, user_id := uid
                country_id := cid, location_id := none, startdate := sd
                enddate := ed, notes := none }
            (.ok 201 row,
             { db with trips := db.trips ++ [row], nextTripId := db.nextTripId + 1 })

/-- `TripResource.get`: SELECT by id, 404 when absent. -/
def tripGet (db : DB) (id : Nat) : Outcome TripRow :=
  match db.trips.find? (fun t => t.trip_id == id) with
  | some t => .ok 200 t
  | none => .err 404 ("Trip with ID " ++ toString id ++ " not found.")

/-- `TripResource.put`: same payload validation as `TripList.post` (400),
then 404 when the target trip does not exist, then the foreign-key existence
checks (400), then `UPDATE Trips SET trip_name, user_id, country_id,
startdate, enddate` — NOT NULL violations become an uncaught-shape 500, a
`(user_id, trip_name)` clash with a *different* row 409; `location_id` and
`notes` are not touched by the UPDATE.  The updated row is re-read and
returned with 200. -/
def tripPut (db : DB) (tid : Nat) (p : TripInput) : Outcome TripRow × DB :=
  let trip_name := pyStrip (p.trip_name.getD "")
  if trip_name == "" || !p.user_id.isSome || !p.country_id.isSome then
    (.err 400 "trip_name, user_id, and country_id are required for update.", db)
  else
    match db.trips.find? (fun t => t.trip_id == tid) with
    | none => (.err 404 ("Trip with ID " ++ toString tid ++ " not found, cannot update."), db)
    | some old =>
      let uid := p.user_id.getD 0
      let cid := p.country_id.getD 0
      if !(userExists db uid) then
        (.err 400 ("User with ID " ++ toString uid ++ " (for update) does not exist."), db)
      else if !(countryExists db cid) then
        (.err 400 ("Country with ID " ++ toString cid ++ " (for update) does not exist."), db)
      else
        match p.startdate with
        | none =>
          (.err 500 "Database error during trip update: NOT NULL constraint failed: Trips.startdate", db)
        | some sd =>
          match p.enddate with
          | none =>
            (.err 500 "Database error during trip update: NOT NULL constraint failed: Trips.enddate", db)
          | some ed =>
            if db.trips.any (fun t => t.trip_id != tid && t.user_id == uid && t.trip_name == trip_name) then
              (.err 409 ("User (ID: " ++ toString uid ++ ") already has another trip named " ++ trip_name ++ ". Please choose a different name."), db)
            else
              let row : TripRow :=
                { trip_id := tid, trip_name := trip_name, user_id := uid
                  country_id := cid, location_id := old.location_id
                  startdate := sd, enddate := ed, notes := old.notes }
              (.ok 200 row,
               { db with trips := db.trips.map (fun t => if t.trip_id == tid then row else t) })

/-! ## Countries resource (`src/resources/countries.py`)

The handler consults two external predicates: `pycountry.countries.get`
(whether a string is a real ISO 3166-1 alpha-3 code) and the `is_valid_url`
regular expression.  Both are threaded through the embedding as Boolean
oracles `validCode` and `validUrl`; no claim below depends on the decision of
either, so every theorem quantifies over them. -/

/-- User row 1. -/
def alice : UserRow := ⟨1, "alice", "a@x.com", none, "2024-01-01 00:00:00"⟩

/-- User row 2. -/
def bob : UserRow := ⟨2, "bob", "b@x.com", none, "2024-01-01 00:00:00"⟩

/-- Country row 1. -/
def france : CountryRow := ⟨1, "FRA", "France", none, none, none, none⟩

/-- A user, a country and the link between them (the seeded default data). -/
def dbSeed : DB := ⟨[alice], [france], [], [], [⟨1, 1⟩], 2, 2, 1, 1⟩

/-- One existing user owning no locations, no trips, no links. -/
def dbAliceOnly : DB := ⟨[alice], [], [], [], [], 2, 1, 1, 1⟩

/-- One user and one country, no dependent rows. -/
def dbAliceFrance : DB := ⟨[alice], [france], [], [], [], 2, 2, 1, 1⟩

/-- Two users and one country, no dependent rows. -/
def dbTwoUsers : DB := ⟨[alice, bob], [france], [], [], [], 3, 2, 1, 1⟩

/-- A location owned by user 1 (a state of the `Locations` table itself;
see `c4_location_create_read_roundtrip_broken` for why the API cannot
produce it). -/
def louvreRow : LocationRow := ⟨1, "Louvre", 1, 1, none⟩

/-- `dbAliceFrance` plus `louvreRow`. -/
def dbWithLocation : DB := ⟨[alice], [france], [louvreRow], [], [], 2, 2, 2, 1⟩

/-- A valid location-creation payload for the given owner. -/
def louvrePayload (uid : Nat) : LocationInput :=
  ⟨some "Louvre", some uid, some 1, none, some 48.8584, some 2.2945⟩

/-- A trip payload whose end date precedes its start date. -/
def badDatesTrip : TripInput :=
  ⟨some "Summer", some 1, some 1, some "2024-07-15", some "2024-07-01"⟩

/-- The trip row that `tripsPost dbAliceFrance badDatesTrip` stores. -/
def badTripRow : TripRow := ⟨1, "Summer", 1, 1, none, "2024-07-15", "2024-07-01", none⟩

/-- The state after that insert. -/
def dbAfterBadTrip : DB := ⟨[alice], [france], [], [badTripRow], [], 2, 2, 1, 2⟩

/-- `dbAliceFrance` plus a trip with well-ordered dates (update target). -/
def dbWithGoodTrip : DB :=
  ⟨[alice], [france], [], [⟨1, "Summer", 1, 1, none, "2024-07-01", "2024-07-15", none⟩], [], 2, 2, 1, 2⟩

/-- A duplicate-username payload against `dbSeed`. -/
def dupAliceInput : UserInput := ⟨some "alice", some "other@x.com", none⟩

/-- A trip payload with both dates omitted. -/
def noDatesTrip : TripInput := ⟨some "Hike", some 1, some 1, none, none⟩

/-- Helper: `LocationList.post` never changes the database.  Its INSERT
names the columns `latitude` and `longitude`, which the `Locations` table of
`init_db.py` does not have, so every execution that reaches the INSERT dies
with an uncaught `sqlite3.OperationalError` before any row is stored; the
earlier branches are aborts that store nothing either. -/
theorem locationsPost_preserves (db : DB) (p : LocationInput) :
    (locationsPost db p).2 = db := by
  unfold locationsPost
  rw [show locationsInsertResolves = false from rfl]
  simp only [Bool.not_false, if_true]
  split
  · rfl
  · split
    · rfl
    · split
      · rfl
      · rfl

/-- Helper: inserting into a sorted list never yields the empty list. -/
theorem insertByLocName_ne_nil (x : LocationRow) (l : List LocationRow) :
    insertByLocName x l ≠ [] := by
  cases l with
  | nil => simp [insertByLocName]
  | cons y ys =>
    simp only [insertByLocName]
    split <;> simp

/-- Helper: sorting returns the empty list only on the empty list. -/
theorem sortByLocName_eq_nil (l : List LocationRow) : sortByLocName l = [] ↔ l = [] := by
  cases l with
  | nil => simp [sortByLocName]
  | cons x xs =>
    simp only [sortByLocName]
    constructor
    · intro h
      exact absurd h (insertByLocName_ne_nil _ _)
    · intro h
      exact absurd h (List.cons_ne_nil x xs)

/-- Claim C1: the spec says deleting a User (or Country) cascades to its
Locations, Trips and link rows.  The schema of `init_db.py` declares its
foreign keys without any `ON DELETE CASCADE`, and `db.get_db` switches
`PRAGMA foreign_keys = ON`, so `DELETE FROM Users` on a user that still owns
a dependent row raises `FOREIGN KEY constraint failed`, which the handler
does not catch: the request fails with 500, nothing cascades and the
dependent link row remains readable — contradicting the handler's own
docstring ("Related data ... will also be deleted due to CASCADE").
Evaluated at the seeded state (user 1 linked to country 1). -/
theorem c1_user_delete_does_not_cascade :
    userDelete dbSeed 1 = (.err 500 "FOREIGN KEY constraint failed", dbSeed)
      ∧ userExists dbSeed 1 = true
      ∧ linkGet dbSeed 1 1 = .ok 200 ⟨1, 1⟩ := by
  refine ⟨rfl, rfl, rfl⟩

/-- Claim C2, counterexample: user 1 exists and owns zero locations, yet
`GET /locations/user/1` answers 404 ("No locations found ..."), not the
empty list the claim promises. -/
theorem c2_empty_listing_counterexample :
    userExists dbAliceOnly 1 = true
      ∧ dbAliceOnly.locations.filter (fun l => l.user_id == 1) = []
      ∧ userLocationsGet dbAliceOnly 1 = .err 404 "No locations found for user ID 1." := by
  refine ⟨rfl, rfl, rfl⟩

/-- Claim C2, amended: the scoped listing `GET /locations/user/{user_id}`
returns NotFoundError when the user does not exist, NotFoundError as well
when the user exists but owns zero locations, and the name-ordered list of
the user's locations (with 200) only when that list is nonempty. -/
theorem c2_scoped_location_listing (db : DB) (uid : Nat) :
    (userExists db uid = false →
      userLocationsGet db uid = .err 404 ("User with ID " ++ toString uid ++ " does not exist."))
    ∧ (userExists db uid = true →
        db.locations.filter (fun l => l.user_id == uid) = [] →
      userLocationsGet db uid = .err 404 ("No locations found for user ID " ++ toString uid ++ "."))
    ∧ (userExists db uid = true →
        db.locations.filter (fun l => l.user_id == uid) ≠ [] →
      userLocationsGet db uid =
        .ok 200 (sortByLocName (db.locations.filter (fun l => l.user_id == uid)))) := by
  refine ⟨fun h => ?_, fun h hloc => ?_, fun h hloc => ?_⟩
  · simp [userLocationsGet, h]
  · simp [userLocationsGet, h, hloc, sortByLocName]
  · simp [userLocationsGet, h, sortByLocName_eq_nil, hloc]

/-- Witness for `c2_scoped_location_listing`: all three branches at concrete
states. -/
theorem c2_scoped_location_listing_witness :
    userLocationsGet dbAliceOnly 2 = .err 404 "User with ID 2 does not exist."
      ∧ userLocationsGet dbAliceOnly 1 = .err 404 "No locations found for user ID 1."
      ∧ userLocationsGet dbWithLocation 1 = .ok 200 [louvreRow] :=
  ⟨(c2_scoped_location_listing dbAliceOnly 2).1 (by decide),
   (c2_scoped_location_listing dbAliceOnly 1).2.1 (by decide) (by decide),
   (c2_scoped_location_listing dbWithLocation 1).2.2 (by decide) (by decide)⟩

/-- Claim C3: the spec requires a Trip whose end date precedes its start
date to be rejected with a ValidationError.  Neither `TripList.post` nor
`TripResource.put` compares the two dates: the create stores the reversed
dates and answers 201, and the update overwrites a well-ordered trip with
reversed dates and answers 200.  Evaluated at startdate 2024-07-15 /
enddate 2024-07-01. -/
theorem c3_reversed_trip_dates_accepted :
    tripsPost dbAliceFrance badDatesTrip = (.ok 201 badTripRow, dbAfterBadTrip)
      ∧ strLt badTripRow.enddate badTripRow.startdate = true
      ∧ tripGet dbAfterBadTrip 1 = .ok 200 badTripRow
      ∧ tripPut dbWithGoodTrip 1 badDatesTrip = (.ok 200 badTripRow, dbAfterBadTrip) := by
  refine ⟨rfl, rfl, rfl, rfl⟩

/-- Claim C4: the spec promises a create/read round-trip for every entity.
For Location it cannot hold: the INSERT of `LocationList.post` names the
columns `latitude` and `longitude`, which the `Locations` table created by
`init_db.py` lacks, so location creation never stores a row (first
conjunct: the database is unchanged by every call), and the concrete valid
payload from the spec's own scenario (name Louvre, user 1, country 1) is
answered with an uncaught-error 500 instead of 201 (second conjunct). -/
theorem c4_location_create_read_roundtrip_broken :
    (∀ (db : DB) (p : LocationInput), (locationsPost db p).2 = db)
      ∧ locationsPost dbAliceFrance (louvrePayload 1) =
          (.err 500 "table Locations has no column named latitude", dbAliceFrance) :=
  ⟨locationsPost_preserves, by decide⟩

/-- Claim C5: the spec says creating the same location name under two
different users succeeds for both.  No location create can succeed at all:
with users 1 and 2 and country 1 present, both creations of "Louvre" die
with the 500 OperationalError of the latitude/longitude column mismatch,
and the state is unchanged, so the `(user_id, loc_name)` uniqueness rule is
never exercised through the API. -/
theorem c5_location_name_uniqueness_not_exercisable :
    (locationsPost dbTwoUsers (louvrePayload 1)).1.statusCode = 500
      ∧ (locationsPost dbTwoUsers (louvrePayload 2)).1.statusCode = 500
      ∧ (locationsPost dbTwoUsers (louvrePayload 1)).2 = dbTwoUsers := by
  refine ⟨rfl, rfl, rfl⟩

/-- Claim C6: creating a second user with an already-taken username (with
nonblank username and email, so validation passes) hits the `UNIQUE`
constraint on `Users.username`; the handler translates the IntegrityError to
409 and the database — every existing row included — is exactly as before
the attempt. -/
theorem c6_duplicate_username_conflict (db : DB) (p : UserInput) (now : String)
    (hu : pyStrip (p.username.getD "") ≠ "")
    (he : pyStrip (p.email.getD "") ≠ "")
    (hdup : db.users.any (fun u => u.username == pyStrip (p.username.getD "")) = true) :
    (usersPost db p now).1.statusCode = 409 ∧ (usersPost db p now).2 = db := by
  constructor <;> simp [usersPost, hu, he, hdup, Outcome.statusCode]

/-- Witness for `c6_duplicate_username_conflict`: re-creating "alice"
against the seeded state. -/
theorem c6_duplicate_username_conflict_witness :
    (usersPost dbSeed dupAliceInput "t1").1.statusCode = 409
      ∧ (usersPost dbSeed dupAliceInput "t1").2 = dbSeed :=
  c6_duplicate_username_conflict dbSeed dupAliceInput "t1" (by decide) (by decide) (by decide)

/-- Claim C7: a location create whose (structurally valid) payload names a
nonexistent user id, or an existing user but a nonexistent country id, is
rejected by the pre-insert existence checks with a 400 foreign-key-reference
message naming the missing id — not a 409 conflict nor a raw 500 storage
error — and the database is unchanged, so nothing was inserted. -/
theorem c7_location_missing_reference (db : DB) (p : LocationInput) (uid cid : Nat)
    (hname : pyStrip (p.loc_name.getD "") ≠ "")
    (hu : p.user_id = some uid)
    (hc : p.country_id = some cid)
    (hlat : p.latitude.isSome = true)
    (hlong : p.longitude.isSome = true)
    (hmiss : userExists db uid = false
      ∨ (userExists db uid = true ∧ countryExists db cid = false)) :
    ((locationsPost db p).1 = .err 400 ("User with ID " ++ toString uid ++ " does not exist.")
      ∨ (locationsPost db p).1 = .err 400 ("Country with ID " ++ toString cid ++ " does not exist."))
    ∧ (locationsPost db p).2 = db := by
  rcases hmiss with hmiss | ⟨hu2, hc2⟩
  · exact ⟨Or.inl (by simp [locationsPost, hname, hu, hc, hlat, hlong, hmiss]),
      locationsPost_preserves db p⟩
  · exact ⟨Or.inr (by simp [locationsPost, hname, hu, hc, hlat, hlong, hu2, hc2]),
      locationsPost_preserves db p⟩

/-- Witness for `c7_location_missing_reference`: creating "Louvre" for the
nonexistent user 99. -/
theorem c7_location_missing_reference_witness :
    ((locationsPost dbAliceFrance (louvrePayload 99)).1 = .err 400 "User with ID 99 does not exist."
      ∨ (locationsPost dbAliceFrance (louvrePayload 99)).1 = .err 400 "Country with ID 1 does not exist.")
    ∧ (locationsPost dbAliceFrance (louvrePayload 99)).2 = dbAliceFrance :=
  c7_location_missing_reference dbAliceFrance (louvrePayload 99) 99 1
    (by decide) rfl rfl rfl rfl (Or.inl (by decide))

/-- Claim C9: re-creating an existing user-country link pair hits the
composite primary key, which the handler reports as 409; the link table (the
whole database) is unchanged and the original link row is still readable —
no silent no-op, no lost row. -/
theorem c9_duplicate_link_conflict (db : DB) (uid cid : Nat)
    (hu : userExists db uid = true)
    (hc : countryExists db cid = true)
    (hdup : db.links.any (fun l => l.user_id == uid && l.country_id == cid) = true) :
    (linkPost db ⟨some uid, some cid⟩).1.statusCode = 409
      ∧ (linkPost db ⟨some uid, some cid⟩).2 = db
      ∧ linkGet db uid cid = .ok 200 ⟨uid, cid⟩ := by
  refine ⟨?_, ?_, ?_⟩ <;> simp [linkPost, linkGet, hu, hc, hdup, Outcome.statusCode]

/-- Witness for `c9_duplicate_link_conflict`: re-linking user 1 and
country 1 in the seeded state. -/
theorem c9_duplicate_link_conflict_witness :
    (linkPost dbSeed ⟨some 1, some 1⟩).1.statusCode = 409
      ∧ (linkPost dbSeed ⟨some 1, some 1⟩).2 = dbSeed
      ∧ linkGet dbSeed 1 1 = .ok 200 ⟨1, 1⟩ :=
  c9_duplicate_link_conflict dbSeed 1 1 (by decide) (by decide) (by decide)

/-- Claim C10: a trip create with nonblank name and existing user and
country but a missing `startdate` or `enddate` passes the handler's
validation (which never looks at the dates), reaches the INSERT, violates
the `NOT NULL` constraint, and is answered with the generic 500 storage
error — not a 400 ValidationError — while no trip row is inserted. -/
theorem c10_trip_missing_date_storage_error (db : DB) (p : TripInput) (uid cid : Nat)
    (hname : pyStrip (p.trip_name.getD "") ≠ "")
    (huid : p.user_id = some uid)
    (hcid : p.country_id = some cid)
    (hu : userExists db uid = true)
    (hc : countryExists db cid = true)
    (hdates : p.startdate = none ∨ p.enddate = none) :
    (tripsPost db p).1.statusCode = 500 ∧ (tripsPost db p).2 = db := by
  rcases hdates with hd | hd
  · constructor <;> simp [tripsPost, hname, huid, hcid, hu, hc, hd, Outcome.statusCode]
  · cases hsd : p.startdate with
    | none => constructor <;> simp [tripsPost, hname, huid, hcid, hu, hc, hsd, Outcome.statusCode]
    | some sd =>
      constructor <;> simp [tripsPost, hname, huid, hcid, hu, hc, hsd, hd, Outcome.statusCode]

/-- Witness for `c10_trip_missing_date_storage_error`: creating "Hike" with
both dates omitted. -/
theorem c10_trip_missing_date_storage_error_witness :
    (tripsPost dbAliceFrance noDatesTrip).1.statusCode = 500
      ∧ (tripsPost dbAliceFrance noDatesTrip).2 = dbAliceFrance :=
  c10_trip_missing_date_storage_error dbAliceFrance noDatesTrip 1 1
    (by decide) rfl rfl (by decide) (by decide) (Or.inl rfl)

end TravelWeb
